import Mathlib

/-!
Verification of the BadgeGenerator batch/render/layout logic
(src/BadgeGenerator.py) against its specification.

The Python source is shallowly embedded: pure string manipulation becomes
Lean functions over `String` / `List Char`; the renderer's interaction with
the filesystem (image loads, font loads) is an explicit environment of
boolean oracles; the single `img.save` call at the end of a successful
render is reflected as the list of files a call writes.
-/

namespace BadgeGen

/-! ## Python string primitives, modelled over the character list -/

/-- Python s.startswith(pre). -/
def pyStartsWith (s pre : String) : Bool :=
  pre.data.isPrefixOf s.data

/-- Python s[n:]. -/
def pyDrop (s : String) (n : Nat) : String :=
  ⟨s.data.drop n⟩

/-- Python s[:-n]. -/
def pyDropRight (s : String) (n : Nat) : String :=
  ⟨s.data.take (s.data.length - n)⟩

/-- Python s.strip(): whitespace removed from both ends. -/
def pyStrip (s : String) : String :=
  ⟨(((s.data.dropWhile Char.isWhitespace).reverse.dropWhile Char.isWhitespace).reverse)⟩

/-- Python s.upper(). -/
def pyUpper (s : String) : String :=
  ⟨s.data.map Char.toUpper⟩

/-- Python sep.join(parts). -/
def pyJoin (sep : String) : List String → String
  | [] => ""
  | [x] => x
  | x :: y :: xs => x ++ sep ++ pyJoin sep (y :: xs)

/-- Code-point lexicographic comparison of character lists: the order
Python's sorted() imposes on strings. -/
def charListLe : List Char → List Char → Bool
  | [], _ => true
  | _ :: _, [] => false
  | a :: as, b :: bs =>
    if a < b then true
    else if b < a then false
    else charListLe as bs

/-- Python string comparison s <= t, by code points. -/
def strLe (s t : String) : Bool :=
  charListLe s.data t.data

/-! ## Identifier cleaning (clean_employee_id, lines 62-71) -/

/-- Model of Python str.isdigit for our purposes: nonempty and every
character a decimal digit (isdigit on the empty string is False). -/
def pyIsDigit (l : List Char) : Bool :=
  !l.isEmpty && l.all Char.isDigit

/-- Character-level body of clean_employee_id: `employee_id[:-2]` is
dropping the last two characters, `endswith('.0')` is the two-character
suffix test. -/
def cleanIdChars (l : List Char) : List Char :=
  if ['.', '0'].isSuffixOf l && pyIsDigit l.dropLast.dropLast then
    l.dropLast.dropLast
  else l

/-- clean_employee_id: remove a trailing ".0" when the rest is all digits. -/
def clean_employee_id (s : String) : String :=
  ⟨cleanIdChars s.data⟩

/-! ## Filename sanitization (sanitize_filename, lines 50-60) -/

/-- The fixed illegal-character list of sanitize_filename. -/
def illegal_chars : List Char :=
  ['<', '>', ':', '"', '/', '\\', '|', '?', '*']

/-- Model of Python `filename.replace(char, underscore)` for a one-character
pattern: pointwise substitution. -/
def replaceChar (c r : Char) (l : List Char) : List Char :=
  l.map fun x => if x = c then r else x

/-- sanitize_filename: successively replace each illegal character by an
underscore. -/
def sanitize_filename (s : String) : String :=
  ⟨illegal_chars.foldl (fun acc c => replaceChar c '_' acc) s.data⟩

/-! ## Output filename (generate_badge, lines 162-166) -/

/-- The identifier as used for the output filename: `employee_id[4:]` when
the identifier starts with the literal "No.", otherwise unchanged. -/
def id_filename_base (eid : String) : String :=
  if pyStartsWith eid "No." then pyDrop eid 4 else eid

/-- The full output path: os.path.join(OUTPUT_FOLDER, badge_{side}_{id}.png). -/
def output_filename (side eid : String) : String :=
  "Badge_output/badge_" ++ side ++ "_" ++ sanitize_filename (id_filename_base eid) ++ ".png"

/-- Modelled from the spec wording of output naming: strip exactly the
literal "No." from the identifier (three characters). Used only to compare
the spec's words against the code's `employee_id[4:]`. -/
def spec_id_base (eid : String) : String :=
  if pyStartsWith eid "No." then pyDrop eid 3 else eid

/-! ## Name splitting (generate_badge, lines 83-106) -/

/-- Model of Python `name.split(' ', 1)`: everything before the first space,
and everything after it. Only used when a space is present. -/
def splitAtFirstSpace : List Char → List Char × List Char
  | [] => ([], [])
  | c :: cs =>
    if c = ' ' then ([], cs)
    else
      let p := splitAtFirstSpace cs
      (c :: p.1, p.2)

/-! ## The badge renderer (generate_badge, lines 73-176) -/

/-- Data dictionary for one render, with the keys generate_badge reads. -/
structure BadgeData where
  name : String
  id : String
  department : String
  position : String
  name_char_limit : Nat
  background_img : String
  photo_img : Option String
  font : String → String

/-- The filesystem/library environment: which background images, photos and
fonts load successfully. -/
structure Env where
  bgLoadOk : String → Bool
  photoOk : String → Bool
  fontOk : String → Bool

/-- The failure cases of one render. -/
inductive GenError where
  | nameTooLong (name : String)
  | backgroundLoad (img : String)
  | photoInsert (img : String)
  | fontNotFound
  deriving Repr, DecidableEq

/-- A successful render: the saved file and the (element, text) pairs drawn. -/
structure RenderOk where
  file : String
  drawn : List (String × String)
  deriving Repr, DecidableEq

/-- The text_elements list generate_badge settles on: none encodes the
name-too-long failure (over the limit, no space to split at). -/
def active_elements (d : BadgeData) : Option (List String) :=
  if d.name_char_limit < d.name.length then
    if d.name.data.contains ' ' then
      some ["first_name", "last_name", "id", "department", "position"]
    else none
  else some ["name", "id", "department", "position"]

/-- The string drawn for a text element: `data.get(element, empty)` after the
first_name/last_name update. -/
def elementText (d : BadgeData) (e : String) : String :=
  if e = "name" then d.name
  else if e = "first_name" then ⟨(splitAtFirstSpace d.name.data).1⟩
  else if e = "last_name" then ⟨(splitAtFirstSpace d.name.data).2⟩
  else if e = "id" then d.id
  else if e = "department" then d.department
  else if e = "position" then d.position
  else ""

/-- generate_badge with suppress_message: name handling, background load,
photo composition (front only, when a photo is given), font loading for
every active element, then a single save of badge_{side}_{safeId}.png. -/
def generate_badge (env : Env) (side : String) (d : BadgeData) :
    Except GenError RenderOk :=
  match active_elements d with
  | none => .error (.nameTooLong d.name)
  | some elems =>
    if !env.bgLoadOk d.background_img then .error (.backgroundLoad d.background_img)
    else
      match (if side = "front" then d.photo_img else none) with
      | some p =>
        if !env.photoOk p then .error (.photoInsert p)
        else
          if elems.all fun e => env.fontOk (d.font e) then
            .ok { file := output_filename side d.id
                  drawn := elems.map fun e => (e, elementText d e) }
          else .error .fontNotFound
      | none =>
        if elems.all fun e => env.fontOk (d.font e) then
          .ok { file := output_filename side d.id
                drawn := elems.map fun e => (e, elementText d e) }
        else .error .fontNotFound

/-- The files one call to generate_badge writes: the lone img.save happens
exactly at the end of a successful run. -/
def files_written (r : Except GenError RenderOk) : List String :=
  match r with
  | .ok ok => [ok.file]
  | .error _ => []

/-! ## Batch pipeline (batch_generate_badges / task / process_row, lines 374-545) -/

/-- One spreadsheet row; none models a pandas NaN cell (the Employee Number
column is read with dtype str, so present cells are strings). -/
structure Row where
  localName : Option String
  englishName : Option String
  employeeNumber : Option String
  department : Option String
  position : Option String
  departmentEn : Option String
  positionEn : Option String
  deriving Repr, DecidableEq

/-- Python str() applied to a cell: NaN renders as "nan", strings unchanged
(this is what `.astype(str)` and `str(value)` do). -/
def pdStr : Option String → String
  | none => "nan"
  | some s => s

/-- is_missing (line 434): pd.isna(value) or str(value).strip() empty. -/
def is_missing : Option String → Bool
  | none => true
  | some s => pyStrip s = ""

/-- The seven required column names, in the order process_row checks them. -/
def required_columns : List String :=
  ["Local Name", "English Name", "Employee Number", "Department",
   "Position", "Department_en", "Position_en"]

/-- The row's cells paired with their column names, in check order. -/
def row_fields (r : Row) : List (String × Option String) :=
  [("Local Name", r.localName), ("English Name", r.englishName),
   ("Employee Number", r.employeeNumber), ("Department", r.department),
   ("Position", r.position), ("Department_en", r.departmentEn),
   ("Position_en", r.positionEn)]

/-- The missing-field names collected for one row (lines 450-464). -/
def missing_fields (r : Row) : List String :=
  ((row_fields r).filter fun p => is_missing p.2).map Prod.fst

/-- Line 427: `df[Employee Number].astype(str).str.strip()` — the trimmed
(but not otherwise cleaned) employee numbers of all rows. -/
def trimmed_ids (rows : List Row) : List String :=
  rows.map fun r => pyStrip (pdStr r.employeeNumber)

/-- Line 428: the values occurring more than once among the trimmed
employee numbers (`duplicated(keep=False)].unique()`). -/
def duplicated_ids (rows : List Row) : List String :=
  ((trimmed_ids rows).filter fun v => decide (1 < (trimmed_ids rows).count v)).dedup

/-- The error message of a row with missing fields (line 467). -/
def missing_row_msg (i : Nat) (fields : List String) : String :=
  "Row " ++ toString (i + 2) ++ ": Missing fields - " ++
    pyJoin ", " fields ++ "."

/-- The error message of a row whose employee number is flagged duplicate
(line 485). -/
def dup_row_msg (i : Nat) (eid : String) : String :=
  "Row " ++ toString (i + 2) ++ ": Employee Number \x27" ++ eid ++
    "\x27 is duplicated."

/-- The error message of a row whose render raised (line 513). -/
def render_fail_msg (i : Nat) (eid : String) : String :=
  "Row " ++ toString (i + 2) ++ ": Failed to generate badge for Employee ID " ++
    eid ++ "."

/-- How one row ended. -/
inductive RowStatus where
  | missing
  | dup
  | renderFailed
  | ok
  deriving Repr, DecidableEq

/-- The outcome of process_row on one row: the error entry it contributed
(if any) and the badge files it wrote. -/
structure RowResult where
  status : RowStatus
  errorMsg : Option String
  files : List String
  deriving Repr, DecidableEq

/-- The per-side template data a preset supplies to the renderer. -/
structure PresetSide where
  background_img : String
  name_char_limit : Nat
  photo_img : Option String
  font : String → String

/-- The BadgeData built in process_row for one side (lines 492-508): row
values for name/id/department/position, template data from the preset. -/
def mkBadgeData (name eid dep pos : String) (p : PresetSide) : BadgeData :=
  { name := name
    id := "No. " ++ eid
    department := dep
    position := pos
    name_char_limit := p.name_char_limit
    background_img := p.background_img
    photo_img := p.photo_img
    font := p.font }

/-- The cleaned employee number of a row (line 473). -/
def row_eid (r : Row) : String :=
  clean_employee_id (pyStrip (pdStr r.employeeNumber))

/-- The front-side render data of a row (lines 491-498). -/
def front_badge_data (r : Row) (p : PresetSide) : BadgeData :=
  mkBadgeData (pyStrip (pdStr r.localName)) (row_eid r)
    (pyStrip (pdStr r.department)) (pyStrip (pdStr r.position)) p

/-- The back-side render data of a row (lines 502-509). -/
def back_badge_data (r : Row) (p : PresetSide) : BadgeData :=
  mkBadgeData (pyStrip (pdStr r.englishName)) (row_eid r)
    (pyStrip (pdStr r.departmentEn)) (pyStrip (pdStr r.positionEn)) p

/-- process_row (lines 438-515): missing-field check, id cleaning,
duplicate check against the batch-level duplicate list, then front and back
renders (an exception in either is caught into one error entry). -/
def process_row (rows : List Row) (env : Env) (pFront pBack : PresetSide)
    (i : Nat) (r : Row) : RowResult :=
  if missing_fields r ≠ [] then
    { status := .missing, errorMsg := some (missing_row_msg i (missing_fields r))
      files := [] }
  else if row_eid r ∈ duplicated_ids rows then
    { status := .dup, errorMsg := some (dup_row_msg i (row_eid r)), files := [] }
  else
    match generate_badge env "front" (front_badge_data r pFront) with
    | .error _ =>
      { status := .renderFailed, errorMsg := some (render_fail_msg i (row_eid r))
        files := [] }
    | .ok rf =>
      match generate_badge env "back" (back_badge_data r pBack) with
      | .error _ =>
        { status := .renderFailed, errorMsg := some (render_fail_msg i (row_eid r))
          files := [rf.file] }
      | .ok rb =>
        { status := .ok, errorMsg := none, files := [rf.file, rb.file] }

/-- Line 404: the required columns absent from the file's columns. -/
def missing_columns (cols : List String) : List String :=
  required_columns.filter fun c => decide (c ∉ cols)

/-- The up-front abort message naming all missing columns (line 406). -/
def missing_columns_msg (missing : List String) : String :=
  "The Excel file is missing the following required columns: " ++
    pyJoin ", " missing

/-- Batch-level duplicate notice appended before per-row work (line 430). -/
def dup_found_msg (dups : List String) : String :=
  "Duplicate Employee Numbers found: " ++ pyJoin ", " dups

/-- Overall outcome of one run of task (lines 389-536). -/
inductive BatchOutcome where
  | columnsError (msg : String)
  | presetError (msg : String)
  | done (dupMsg : Option String) (results : List RowResult)
  deriving Repr, DecidableEq

/-- task (lines 389-536): column check, preset check, batch-level duplicate
scan, then every row processed (the worker pool runs process_row on each
row; results are per-row and order-independent, listed here in row order). -/
def run_task (cols : List String) (rows : List Row) (presetOk : Bool)
    (env : Env) (pFront pBack : PresetSide) : BatchOutcome :=
  if missing_columns cols ≠ [] then
    .columnsError (missing_columns_msg (missing_columns cols))
  else if !presetOk then
    .presetError "The selected preset does not exist."
  else
    .done (if duplicated_ids rows ≠ [] then some (dup_found_msg (duplicated_ids rows)) else none)
      (rows.enum.map fun p => process_row rows env pFront pBack p.1 p.2)

/-! ## PDF compositor (generate_badge_pdf, lines 178-264) -/

/-- Layout constants taken from config.json (lines 186-196); preFront and
preBack are the filename markers of front and back badge images. -/
structure PdfConfig where
  preFront : String
  preBack : String
  group_spacing_x : ℚ
  group_spacing_y : ℚ
  start_y : ℚ
  badge_width : ℚ

/-- get_image_dimensions (lines 37-48): pixel size over DPI times 25.4
millimetres per inch; absent DPI metadata defaults to 300. -/
def get_image_dimensions (pxw pxh : ℚ) (dpi : Option ℚ) : ℚ × ℚ :=
  let d := dpi.getD 300
  (pxw / d * (254 / 10), pxh / d * (254 / 10))

/-- Line 210/211: the files carrying a given marker, sorted ascending. -/
def marked_files (files : List String) (pre : String) : List String :=
  (files.filter fun f => pyStartsWith f pre).insertionSort fun a b => strLe a b = true

/-- Lines 214/215: the join key of a file, `f[len(pre):-4]`. -/
def key_of (pre f : String) : String :=
  pyDropRight (pyDrop f pre.length) 4

/-- The keys of the front (or back) dictionary. -/
def side_keys (files : List String) (pre : String) : List String :=
  (marked_files files pre).map (key_of pre)

/-- Line 218: sorted set union of front and back keys. -/
def all_keys (files : List String) (pf pb : String) : List String :=
  ((side_keys files pf) ++ (side_keys files pb)).dedup.insertionSort
    fun a b => strLe a b = true

/-- The dictionary built by inserting the sorted files in order: when two
files share a key the later insertion wins. -/
def file_for (files : List String) (pre : String) (key : String) : Option String :=
  ((marked_files files pre).filter fun f => key_of pre f = key).getLast?

/-- The loop header at line 221: keys taken three at a time, one page per
group. -/
def chunk3 (l : List String) : List (List String) :=
  if l = [] then [] else l.take 3 :: chunk3 (l.drop 3)
termination_by l.length
decreasing_by
  simp only [List.length_drop]
  rename_i h
  have : 0 < l.length := List.length_pos.mpr h
  omega

/-- Line 231: the horizontal slot position of slot j. -/
def slot_x (cfg : PdfConfig) (j : Nat) : ℚ :=
  (cfg.badge_width + cfg.group_spacing_x) * j + cfg.group_spacing_x

/-- One placed image: source file and its physical rectangle. -/
structure Placement where
  file : String
  x : ℚ
  y : ℚ
  w : ℚ
  h : ℚ
  deriving Repr, DecidableEq

/-- Lines 231-251 for one key in slot j: y starts at start_y; a present
front image is placed there and pushes y down by its height plus the row
gap; a present back image is then placed at the current y. -/
def place_key (cfg : PdfConfig) (dims : String → ℚ × ℚ) (j : Nat)
    (frontFile backFile : Option String) : List Placement :=
  let x := slot_x cfg j
  match frontFile with
  | some ff =>
    let d := dims ff
    { file := ff, x := x, y := cfg.start_y, w := d.1, h := d.2 } ::
      (match backFile with
       | some bf =>
         let db := dims bf
         [{ file := bf, x := x, y := cfg.start_y + d.2 + cfg.group_spacing_y
            w := db.1, h := db.2 }]
       | none => [])
  | none =>
    match backFile with
    | some bf =>
      let db := dims bf
      [{ file := bf, x := x, y := cfg.start_y, w := db.1, h := db.2 }]
    | none => []

/-- All placements of one page, given the page's key group. -/
def page_placements (cfg : PdfConfig) (dims : String → ℚ × ℚ)
    (files : List String) (keys : List String) : List Placement :=
  (keys.enum.map fun p =>
    place_key cfg dims p.1 (file_for files cfg.preFront p.2)
      (file_for files cfg.preBack p.2)).flatten

/-- The whole document: one page per key triple, in sorted key order. -/
def layout (cfg : PdfConfig) (dims : String → ℚ × ℚ)
    (files : List String) : List (List Placement) :=
  (chunk3 (all_keys files cfg.preFront cfg.preBack)).map
    (page_placements cfg dims files)

/-! ## Dictionary merge order (process_row lines 490-510, generate lines
343-357) -/

/-- Python dict.update viewed extensionally: keys of the update dict win,
all other keys keep the base dict's value. -/
def dict_update (base upd : String → Option String) : String → Option String :=
  fun k =>
    match upd k with
    | some v => some v
    | none => base k

/-- The row-derived front dict of process_row (lines 492-497). -/
def row_front_dict (localName eid dep pos : String) : String → Option String :=
  fun k =>
    if k = "name" then some localName
    else if k = "id" then some ("No. " ++ eid)
    else if k = "department" then some dep
    else if k = "position" then some pos
    else none

/-- Line 498: `front_data.update(front_preset)` — the preset is merged last
over the row-derived dict. -/
def batch_front_record (localName eid dep pos : String)
    (preset : String → Option String) : String → Option String :=
  dict_update (row_front_dict localName eid dep pos) preset

/-- The user-entry dict of the GUI generate callback (lines 352-357). -/
def gui_user_fields (nameE idE depE posE : String) : String → Option String :=
  fun k =>
    if k = "name" then some (pyStrip nameE)
    else if k = "id" then some ("No. " ++ pyUpper (pyStrip idE))
    else if k = "department" then some (pyStrip depE)
    else if k = "position" then some (pyStrip posE)
    else none

/-- Lines 349-357: `data = preset.copy(); data.update(user fields)` — the
user's input is merged last over the preset. -/
def gui_record (preset : String → Option String)
    (nameE idE depE posE : String) : String → Option String :=
  dict_update preset (gui_user_fields nameE idE depE posE)

/-! ## Concrete fixtures for witnesses and counterexamples -/

/-- An environment in which every image and font loads. -/
def envAll : Env := ⟨fun _ => true, fun _ => true, fun _ => true⟩

/-- An environment in which no font loads. -/
def envNoFont : Env := ⟨fun _ => true, fun _ => true, fun _ => false⟩

/-- A small preset with a 10-character name limit. -/
def presetA : PresetSide := ⟨"bg.png", 10, none, fun _ => "arial.ttf"⟩

/-- A fully populated row with the given employee number. -/
def sampleRow (eid : String) : Row :=
  ⟨some "Ann", some "Beth", some eid, some "D", some "P", some "De", some "Pe"⟩

/-- Two rows whose employee numbers agree only after ".0" stripping. -/
def c1Rows : List Row := [sampleRow "1023", sampleRow "1023.0"]

/-- Two rows with the identical employee number. -/
def dupRows : List Row := [sampleRow "7", sampleRow "7"]

/-- A row with its Local Name cell NaN and its Department cell blank. -/
def badRow : Row :=
  ⟨none, some "Beth", some "7", some " ", some "P", some "De", some "Pe"⟩

/-- A seven-file front set for the pagination witness. -/
def c7Files : List String :=
  ["f1.png", "f2.png", "f3.png", "f4.png", "f5.png", "f6.png", "f7.png"]

/-- A concrete layout configuration. -/
def cfgW : PdfConfig := ⟨"f", "b", 5, 5, 10, 54⟩

/-- Concrete image dimensions: every image 54mm by 85mm. -/
def dimsW : String → ℚ × ℚ := fun _ => (54, 85)

/-! ## Helper lemmas -/

/-- A list of digit characters cannot be stripped again: there is no '.'
in it, so the ".0"-suffix test fails. -/
theorem cleanIdChars_of_digits (l : List Char) (h : pyIsDigit l = true) :
    cleanIdChars l = l := by
  have hcond : ¬(['.', '0'].isSuffixOf l && pyIsDigit l.dropLast.dropLast) = true := by
    intro hc
    rw [Bool.and_eq_true] at hc
    obtain ⟨t, ht⟩ := List.isSuffixOf_iff_suffix.mp hc.1
    have hdot : '.' ∈ l := by
      rw [← ht]; exact List.mem_append_right t (by simp)
    rw [pyIsDigit, Bool.and_eq_true] at h
    have := List.all_eq_true.mp h.2 '.' hdot
    simp at this
  simp [cleanIdChars, hcond]

/-- cleanIdChars is idempotent. -/
theorem cleanIdChars_idem (l : List Char) :
    cleanIdChars (cleanIdChars l) = cleanIdChars l := by
  by_cases h : (['.', '0'].isSuffixOf l && pyIsDigit l.dropLast.dropLast) = true
  · have hl : cleanIdChars l = l.dropLast.dropLast := by
      simp only [cleanIdChars, h, if_true]
    rw [hl]
    rw [Bool.and_eq_true] at h
    exact cleanIdChars_of_digits _ h.2
  · have hl : cleanIdChars l = l := by simp [cleanIdChars, h]
    rw [hl, hl]

/-- Folding single-character replacements over the illegal list is the
pointwise substitution, as long as the replacement character is not itself
in the list. -/
theorem foldl_replaceChar (L : List Char) (s : List Char) (hL : '_' ∉ L) :
    L.foldl (fun acc c => replaceChar c '_' acc) s
      = s.map fun c => if c ∈ L then '_' else c := by
  revert hL
  induction L generalizing s with
  | nil =>
    intro _
    simp [replaceChar]
  | cons a L ih =>
    intro hL
    have h₁ : '_' ∉ L := fun h => hL (List.mem_cons_of_mem a h)
    simp only [List.foldl_cons]
    rw [ih (replaceChar a '_' s) h₁, replaceChar, List.map_map]
    apply List.map_congr_left
    intro c _
    by_cases hca : c = a
    · subst hca
      simp [h₁]
    · simp only [Function.comp_apply, hca, if_false]
      by_cases hcl : c ∈ L
      · simp [hcl]
      · simp [hcl, hca]

/-- Splitting at the first space reassembles the string and the first part
contains no space. -/
theorem splitAtFirstSpace_spec (cs : List Char) (h : cs.contains ' ' = true) :
    (splitAtFirstSpace cs).1 ++ ' ' :: (splitAtFirstSpace cs).2 = cs
    ∧ ' ' ∉ (splitAtFirstSpace cs).1 := by
  induction cs with
  | nil => simp at h
  | cons c cs ih =>
    by_cases hc : c = ' '
    · subst hc
      simp [splitAtFirstSpace]
    · have h' : cs.contains ' ' = true := by
        have hmem : ' ' = c ∨ ' ' ∈ cs := by simpa using h
        rcases hmem with he | hm
        · exact absurd he.symm hc
        · simpa using hm
      obtain ⟨ih1, ih2⟩ := ih h'
      refine ⟨?_, ?_⟩
      · simp only [splitAtFirstSpace, hc, if_false, List.cons_append]
        exact congrArg (c :: ·) ih1
      · simp only [splitAtFirstSpace, hc, if_false, List.mem_cons, not_or]
        exact ⟨fun he => hc he.symm, ih2⟩

/-- Any successful render carries the canonical filename and the drawn
element list of its active element set. -/
theorem generate_badge_ok (env : Env) (side : String) (d : BadgeData)
    (elems : List String) (ok : RenderOk)
    (ha : active_elements d = some elems)
    (hok : generate_badge env side d = .ok ok) :
    ok = { file := output_filename side d.id
           drawn := elems.map fun e => (e, elementText d e) } := by
  simp only [generate_badge, ha] at hok
  cases hbg : env.bgLoadOk d.background_img with
  | false => simp [hbg] at hok
  | true =>
    simp only [hbg, Bool.not_true, Bool.false_eq_true, if_false] at hok
    cases hph : (if side = "front" then d.photo_img else none) with
    | none =>
      rw [hph] at hok
      cases hf : (elems.all fun e => env.fontOk (d.font e)) with
      | false => simp [hf] at hok
      | true =>
        simp only [hf, if_true] at hok
        exact (Except.ok.injEq _ _ ▸ congrArg id hok).symm
    | some p =>
      rw [hph] at hok
      cases hpo : env.photoOk p with
      | false => simp [hpo] at hok
      | true =>
        simp only [hpo, Bool.not_true, Bool.false_eq_true, if_false] at hok
        cases hf : (elems.all fun e => env.fontOk (d.font e)) with
        | false => simp [hf] at hok
        | true =>
          simp only [hf, if_true] at hok
          exact (Except.ok.injEq _ _ ▸ congrArg id hok).symm

/-- When some active element's font fails to load, the render ends in an
error, whatever the other oracles say. -/
theorem generate_badge_font_fail (env : Env) (side : String) (d : BadgeData)
    (elems : List String) (e : String)
    (ha : active_elements d = some elems) (he : e ∈ elems)
    (hf : env.fontOk (d.font e) = false) :
    ∃ err, generate_badge env side d = .error err := by
  have hall : (elems.all fun x => env.fontOk (d.font x)) = false := by
    cases hc : (elems.all fun x => env.fontOk (d.font x)) with
    | false => rfl
    | true =>
      have := List.all_eq_true.mp hc e he
      rw [hf] at this
      exact absurd this (by simp)
  simp only [generate_badge, ha]
  cases hbg : env.bgLoadOk d.background_img with
  | false => exact ⟨.backgroundLoad d.background_img, by simp [hbg]⟩
  | true =>
    cases hph : (if side = "front" then d.photo_img else none) with
    | none => exact ⟨.fontNotFound, by simp [hbg, hph, hall]⟩
    | some p =>
      cases hpo : env.photoOk p with
      | false => exact ⟨.photoInsert p, by simp [hbg, hph, hpo]⟩
      | true => exact ⟨.fontNotFound, by simp [hbg, hph, hpo, hall]⟩

/-- Membership in the missing-field list is exactly having a missing cell
under that column name. -/
theorem mem_missing_fields (r : Row) (f : String) :
    f ∈ missing_fields r ↔ ∃ v, (f, v) ∈ row_fields r ∧ is_missing v = true := by
  simp only [missing_fields, List.mem_map, List.mem_filter]
  constructor
  · rintro ⟨⟨a, b⟩, ⟨hmem, hmiss⟩, rfl⟩
    exact ⟨b, hmem, hmiss⟩
  · rintro ⟨v, hmem, hmiss⟩
    exact ⟨(f, v), ⟨hmem, hmiss⟩, rfl⟩

/-- The number of key groups is the number of keys divided by three,
rounded up. -/
theorem chunk3_length (l : List String) : (chunk3 l).length = (l.length + 2) / 3 := by
  by_cases h : l = []
  · subst h
    simp [chunk3]
  · have hpos : 0 < l.length := List.length_pos.mpr h
    have ih := chunk3_length (l.drop 3)
    rw [chunk3, if_neg h]
    simp only [List.length_cons, ih, List.length_drop]
    omega
termination_by l.length
decreasing_by
  simp only [List.length_drop]
  have : 0 < l.length := List.length_pos.mpr h
  omega

/-- The executable code-point comparison agrees with the lexicographic
order on character lists. -/
theorem charListLe_iff_le (a b : List Char) : charListLe a b = true ↔ ¬ b < a := by
  induction a generalizing b with
  | nil =>
    simp only [charListLe]
    constructor
    · intro _ hlt
      exact List.Lex.not_nil_right _ _ hlt
    · intro _
      trivial
  | cons x xs ih =>
    cases b with
    | nil =>
      simp only [charListLe]
      constructor
      · intro hfalse
        exact absurd hfalse (by simp)
      · intro hn
        exact absurd List.Lex.nil hn
    | cons y ys =>
      by_cases hxy : x < y
      · simp only [charListLe, hxy, if_true, true_iff]
        intro hlt
        cases hlt with
        | cons h => exact absurd hxy (lt_irrefl x)
        | rel h => exact absurd hxy (asymm h)
      · by_cases hyx : y < x
        · simp only [charListLe, hxy, if_false, hyx, if_true]
          constructor
          · intro hfalse
            exact absurd hfalse (by simp)
          · intro hn
            exact absurd (List.Lex.rel hyx) hn
        · have hxe : x = y := le_antisymm (not_lt.mp hyx) (not_lt.mp hxy)
          subst hxe
          simp only [charListLe, lt_irrefl, if_false]
          rw [ih ys]
          constructor
          · intro hn hlt
            cases hlt with
            | cons h => exact hn h
            | rel h => exact absurd h (lt_irrefl x)
          · intro hn hlt
            exact hn (List.Lex.cons hlt)

/-- The executable string comparison agrees with the order on String. -/
theorem strLe_iff (s t : String) : strLe s t = true ↔ s ≤ t := by
  rw [String.le_iff_toList_le, ← not_lt]
  exact charListLe_iff_le s.data t.data

/-! ## Claim theorems -/

/-- C2: for every render whose name is strictly longer than the template's
character limit: if the name contains a space it is split at the first
space and a successful render draws exactly the five-field set first_name,
last_name, id, department, position; if it contains no space the render
fails with the name-too-long error and no file is written. -/
theorem C2_name_overflow (env : Env) (side : String) (d : BadgeData)
    (h : d.name_char_limit < d.name.length) :
    (d.name.data.contains ' ' = false →
      generate_badge env side d = .error (.nameTooLong d.name)
      ∧ files_written (generate_badge env side d) = [])
    ∧ (d.name.data.contains ' ' = true →
      ((splitAtFirstSpace d.name.data).1 ++ ' ' :: (splitAtFirstSpace d.name.data).2
          = d.name.data
        ∧ ' ' ∉ (splitAtFirstSpace d.name.data).1)
      ∧ ∀ ok, generate_badge env side d = .ok ok →
          ok.drawn
            = [("first_name", (⟨(splitAtFirstSpace d.name.data).1⟩ : String)),
               ("last_name", (⟨(splitAtFirstSpace d.name.data).2⟩ : String)),
               ("id", d.id), ("department", d.department), ("position", d.position)]) := by
  constructor
  · intro hns
    have hns2 : ' ' ∉ d.name.data := by simpa using hns
    have ha : active_elements d = none := by simp [active_elements, h, hns2]
    exact ⟨by simp [generate_badge, ha], by simp [files_written, generate_badge, ha]⟩
  · intro hs
    refine ⟨splitAtFirstSpace_spec d.name.data hs, fun ok hok => ?_⟩
    have hs2 : ' ' ∈ d.name.data := by simpa using hs
    have ha : active_elements d
        = some ["first_name", "last_name", "id", "department", "position"] := by
      simp [active_elements, h, hs2]
    rw [generate_badge_ok env side d _ ok ha hok]
    simp [elementText]

/-- C2 witness: the overflow branches evaluated on "Jonathansmith" (error,
no file) and on "Jonathan Smith" (split into Jonathan and Smith). -/
theorem C2_name_overflow_witness :
    (mkBadgeData "Jonathansmith" "1023" "D" "P" presetA).name_char_limit
      < (mkBadgeData "Jonathansmith" "1023" "D" "P" presetA).name.length
    ∧ generate_badge envAll "front" (mkBadgeData "Jonathansmith" "1023" "D" "P" presetA)
        = .error (.nameTooLong "Jonathansmith")
    ∧ files_written (generate_badge envAll "front"
        (mkBadgeData "Jonathansmith" "1023" "D" "P" presetA)) = []
    ∧ (⟨output_filename "front" "No. 1023",
        [("first_name", "Jonathan"), ("last_name", "Smith"), ("id", "No. 1023"),
         ("department", "D"), ("position", "P")]⟩ : RenderOk).drawn
        = [("first_name",
             (⟨(splitAtFirstSpace ("Jonathan Smith" : String).data).1⟩ : String)),
           ("last_name",
             (⟨(splitAtFirstSpace ("Jonathan Smith" : String).data).2⟩ : String)),
           ("id", "No. 1023"), ("department", "D"), ("position", "P")] := by
  have h1 := C2_name_overflow envAll "front"
    (mkBadgeData "Jonathansmith" "1023" "D" "P" presetA) (by decide)
  have h2 := C2_name_overflow envAll "front"
    (mkBadgeData "Jonathan Smith" "1023" "D" "P" presetA) (by decide)
  exact ⟨by decide, (h1.1 (by decide)).1, (h1.1 (by decide)).2,
    (h2.2 (by decide)).2 _ rfl⟩

/-- C4: a font-load failure for any text field of the active field set
aborts the whole render with no file written; in general a render writes
exactly one file on success and none on any failure. -/
theorem C4_render_abort (env : Env) (side : String) (d : BadgeData)
    (elems : List String) (e : String)
    (ha : active_elements d = some elems) (he : e ∈ elems)
    (hf : env.fontOk (d.font e) = false) :
    ((∃ err, generate_badge env side d = .error err)
      ∧ files_written (generate_badge env side d) = [])
    ∧ (∀ ok, generate_badge env side d = .ok ok →
        files_written (generate_badge env side d) = [ok.file])
    ∧ (∀ err, generate_badge env side d = .error err →
        files_written (generate_badge env side d) = []) := by
  obtain ⟨err, herr⟩ := generate_badge_font_fail env side d elems e ha he hf
  exact ⟨⟨⟨err, herr⟩, by rw [herr]; rfl⟩,
    fun ok hok => by rw [hok]; rfl,
    fun err2 herr2 => by rw [herr2]; rfl⟩

/-- C4 witness: with no font loading, the render of a plain record aborts
and writes nothing. -/
theorem C4_render_abort_witness :
    active_elements (mkBadgeData "Ann" "7" "D" "P" presetA)
        = some ["name", "id", "department", "position"]
    ∧ "name" ∈ ["name", "id", "department", "position"]
    ∧ envNoFont.fontOk ((mkBadgeData "Ann" "7" "D" "P" presetA).font "name") = false
    ∧ files_written (generate_badge envNoFont "front"
        (mkBadgeData "Ann" "7" "D" "P" presetA)) = [] := by
  refine ⟨by decide, by decide, rfl, ?_⟩
  exact ((C4_render_abort envNoFont "front" (mkBadgeData "Ann" "7" "D" "P" presetA)
    ["name", "id", "department", "position"] "name" (by decide) (by decide) rfl).1).2

/-- C5: a row with missing required fields produces exactly one error entry
naming all missing fields together (and nothing else), renders no badge,
and a field is listed exactly when its cell is NaN or blank after
trimming. -/
theorem C5_missing_fields_report (rows : List Row) (env : Env)
    (pf pb : PresetSide) (i : Nat) (r : Row) (h : missing_fields r ≠ []) :
    process_row rows env pf pb i r
      = { status := .missing
          errorMsg := some (missing_row_msg i (missing_fields r)), files := [] }
    ∧ ∀ f, f ∈ missing_fields r
        ↔ ∃ v, (f, v) ∈ row_fields r ∧ is_missing v = true := by
  exact ⟨by simp [process_row, h], fun f => mem_missing_fields r f⟩

/-- C5 witness: a row missing Local Name (NaN) and Department (blank). -/
theorem C5_missing_fields_report_witness :
    missing_fields badRow ≠ []
    ∧ missing_fields badRow = ["Local Name", "Department"]
    ∧ process_row [badRow] envAll presetA presetA 0 badRow
        = { status := RowStatus.missing
            errorMsg := some (missing_row_msg 0 (missing_fields badRow))
            files := [] } := by
  exact ⟨by decide, by decide,
    (C5_missing_fields_report [badRow] envAll presetA presetA 0 badRow (by decide)).1⟩

/-- C6: when any required column is absent the batch run aborts up front
with a single message naming exactly the missing columns; the outcome does
not depend on the rows, the preset, or the environment — no row is
validated or rendered. -/
theorem C6_column_precheck (cols : List String) (rows : List Row)
    (presetOk : Bool) (env : Env) (pf pb : PresetSide)
    (h : missing_columns cols ≠ []) :
    run_task cols rows presetOk env pf pb
      = .columnsError (missing_columns_msg (missing_columns cols))
    ∧ (∀ rows2 presetOk2 env2 pf2 pb2,
        run_task cols rows2 presetOk2 env2 pf2 pb2
          = run_task cols rows presetOk env pf pb)
    ∧ (∀ c, c ∈ missing_columns cols ↔ c ∈ required_columns ∧ c ∉ cols) := by
  refine ⟨by simp [run_task, h], fun rows2 p2 e2 pf2 pb2 => by simp [run_task, h],
    fun c => ?_⟩
  simp [missing_columns, List.mem_filter]

/-- C6 witness: a header carrying only Local Name aborts the batch. -/
theorem C6_column_precheck_witness :
    missing_columns ["Local Name"] ≠ []
    ∧ run_task ["Local Name"] [sampleRow "7"] true envAll presetA presetA
        = .columnsError (missing_columns_msg (missing_columns ["Local Name"])) := by
  exact ⟨by decide,
    (C6_column_precheck ["Local Name"] [sampleRow "7"] true envAll presetA presetA
      (by decide)).1⟩



/-- C1 counterexample: two rows whose employee numbers ("1023" and
"1023.0") normalize to the same value are not rejected — the duplicate scan
runs over the merely trimmed values, while the per-row test compares the
cleaned value against that untouched set — and both rows render badges. -/
theorem C1_counterexample :
    row_eid (sampleRow "1023") = row_eid (sampleRow "1023.0")
    ∧ (process_row c1Rows envAll presetA presetA 0 (sampleRow "1023")).status
        = RowStatus.ok
    ∧ (process_row c1Rows envAll presetA presetA 1 (sampleRow "1023.0")).status
        = RowStatus.ok
    ∧ (process_row c1Rows envAll presetA presetA 0 (sampleRow "1023")).files ≠ []
    ∧ (process_row c1Rows envAll presetA presetA 1 (sampleRow "1023.0")).files ≠ [] := by
  exact ⟨by decide, by decide, by decide, by decide, by decide⟩

/-- C1 (amended): the duplicate set is computed once, before per-row work,
over the trimmed — but not ".0"-stripped — employee numbers (a value is in
it iff it occurs more than once); a row that passes the missing-field check
is rejected, with its own per-row message and no badges, exactly when its
normalized number lies in that set. Rows whose trimmed numbers are
identical and untouched by ".0"-stripping are therefore all rejected, but
rows that collide only after normalization are not. -/
theorem C1_duplicate_check (rows : List Row) (env : Env) (pf pb : PresetSide)
    (i : Nat) (r : Row) (hm : missing_fields r = []) :
    ((process_row rows env pf pb i r).status = RowStatus.dup
      ↔ row_eid r ∈ duplicated_ids rows)
    ∧ (row_eid r ∈ duplicated_ids rows →
        process_row rows env pf pb i r
          = { status := .dup, errorMsg := some (dup_row_msg i (row_eid r))
              files := [] })
    ∧ (∀ v, v ∈ duplicated_ids rows ↔ 1 < (trimmed_ids rows).count v) := by
  refine ⟨?_, fun hd => by simp [process_row, hm, hd], fun v => ?_⟩
  · by_cases hd : row_eid r ∈ duplicated_ids rows
    · simp [process_row, hm, hd]
    · rcases hgf : generate_badge env "front" (front_badge_data r pf) with err | rf
      · simp [process_row, hm, hd, hgf]
      · rcases hgb : generate_badge env "back" (back_badge_data r pb) with err2 | rb
        · simp [process_row, hm, hd, hgf, hgb]
        · simp [process_row, hm, hd, hgf, hgb]
  · simp only [duplicated_ids, List.mem_dedup, List.mem_filter,
      decide_eq_true_eq]
    constructor
    · rintro ⟨_, h2⟩
      exact h2
    · intro h1
      refine ⟨?_, h1⟩
      have : 0 < (trimmed_ids rows).count v := lt_trans Nat.zero_lt_one h1
      exact List.count_pos_iff.mp this

/-- C1 witness: two rows both carrying "7" are each rejected as duplicates
with their own message and no files. -/
theorem C1_duplicate_check_witness :
    missing_fields (sampleRow "7") = []
    ∧ row_eid (sampleRow "7") ∈ duplicated_ids dupRows
    ∧ process_row dupRows envAll presetA presetA 0 (sampleRow "7")
        = { status := RowStatus.dup
            errorMsg := some (dup_row_msg 0 (row_eid (sampleRow "7")))
            files := [] } := by
  refine ⟨by decide, by decide,
    (C1_duplicate_check dupRows envAll presetA presetA 0 (sampleRow "7")
      (by decide)).2.1 (by decide)⟩

/-- C7: the document's page order is the ascending lexicographic sort of
the union of front-derived and back-derived keys — deterministic under any
reordering of the folder listing; keys are grouped three per page, so n
keys give ceil(n/3) pages; slot j sits at j * (badgeWidth + columnGap) +
columnGap. -/
theorem C7_page_order (files files2 : List String) (pf pb : String)
    (cfg : PdfConfig) (dims : String → ℚ × ℚ) (hperm : List.Perm files files2) :
    all_keys files2 pf pb = all_keys files pf pb
    ∧ (all_keys files pf pb).Sorted (· ≤ ·)
    ∧ (∀ k, k ∈ all_keys files pf pb
        ↔ k ∈ side_keys files pf ∨ k ∈ side_keys files pb)
    ∧ layout cfg dims files
        = (chunk3 (all_keys files cfg.preFront cfg.preBack)).map
            (page_placements cfg dims files)
    ∧ (layout cfg dims files).length
        = ((all_keys files cfg.preFront cfg.preBack).length + 2) / 3
    ∧ (∀ j : Nat, slot_x cfg j
        = j * (cfg.badge_width + cfg.group_spacing_x) + cfg.group_spacing_x) := by
  haveI htot : IsTotal String fun a b => strLe a b = true := ⟨fun a b => by
    rcases le_total a b with h | h
    · exact Or.inl ((strLe_iff a b).mpr h)
    · exact Or.inr ((strLe_iff b a).mpr h)⟩
  haveI htr : IsTrans String fun a b => strLe a b = true := ⟨fun a b c hab hbc =>
    (strLe_iff a c).mpr (le_trans ((strLe_iff a b).mp hab) ((strLe_iff b c).mp hbc))⟩
  haveI hanti : IsAntisymm String (· ≤ ·) := ⟨fun _ _ => le_antisymm⟩
  have hsorted : ∀ fs : List String, (all_keys fs pf pb).Sorted (· ≤ ·) := by
    intro fs
    have h1 : (all_keys fs pf pb).Sorted fun a b => strLe a b = true := by
      unfold all_keys
      exact List.sorted_insertionSort _ _
    exact h1.imp fun h => (strLe_iff _ _).mp h
  have hside : ∀ pre, List.Perm (side_keys files2 pre) (side_keys files pre) := by
    intro pre
    unfold side_keys marked_files
    refine (List.Perm.map _ (List.perm_insertionSort _ _)).trans
      (List.Perm.trans ?_ (List.Perm.map _ (List.perm_insertionSort _ _)).symm)
    exact List.Perm.map _ (List.Perm.filter _ hperm.symm)
  constructor
  · have hp2 : List.Perm (all_keys files2 pf pb) (all_keys files pf pb) := by
      unfold all_keys
      refine (List.perm_insertionSort _ _).trans
        (List.Perm.trans ?_ (List.perm_insertionSort _ _).symm)
      exact ((hside pf).append (hside pb)).dedup
    exact List.eq_of_perm_of_sorted hp2 (hsorted files2) (hsorted files)
  refine ⟨hsorted files, fun k => ?_, rfl, ?_, fun j => ?_⟩
  · unfold all_keys
    rw [(List.perm_insertionSort _ _).mem_iff, List.mem_dedup, List.mem_append]
  · unfold layout
    rw [List.length_map, chunk3_length]
  · unfold slot_x
    ring

/-- C7 witness: the key order of a seven-badge folder is independent of the
listing order, and the seven keys occupy exactly three pages. -/
theorem C7_page_order_witness :
    List.Perm c7Files c7Files.reverse
    ∧ all_keys c7Files.reverse "f" "b" = all_keys c7Files "f" "b"
    ∧ (layout cfgW dimsW c7Files).length = 3 := by
  have h := C7_page_order c7Files c7Files.reverse "f" "b" cfgW dimsW
    (List.reverse_perm c7Files).symm
  refine ⟨(List.reverse_perm c7Files).symm, h.1, ?_⟩
  rw [h.2.2.2.2.1]
  decide

/-- C8: within a slot, a present front image is placed at the configured
top margin and a present back image directly below it, lower by the front's
height plus the row gap; with no front image, the back image is placed at
the top margin of the same slot; nothing is placed for an absent pair. -/
theorem C8_vertical_stacking (cfg : PdfConfig) (dims : String → ℚ × ℚ) (j : Nat) :
    (∀ ff bf, place_key cfg dims j (some ff) (some bf)
      = [{ file := ff, x := slot_x cfg j, y := cfg.start_y
           w := (dims ff).1, h := (dims ff).2 },
         { file := bf, x := slot_x cfg j
           y := cfg.start_y + (dims ff).2 + cfg.group_spacing_y
           w := (dims bf).1, h := (dims bf).2 }])
    ∧ (∀ ff, place_key cfg dims j (some ff) none
      = [{ file := ff, x := slot_x cfg j, y := cfg.start_y
           w := (dims ff).1, h := (dims ff).2 }])
    ∧ (∀ bf, place_key cfg dims j none (some bf)
      = [{ file := bf, x := slot_x cfg j, y := cfg.start_y
           w := (dims bf).1, h := (dims bf).2 }])
    ∧ place_key cfg dims j none none = [] := by
  exact ⟨fun ff bf => rfl, fun ff => rfl, fun bf => rfl, rfl⟩

/-- C9: identifier normalization is idempotent — normalizing twice equals
normalizing once; "1023.0" and "1023" both normalize to "1023"; the ".0"
suffix is stripped exactly when the remaining part is entirely digits, all
other values passing through unchanged. -/
theorem C9_normalization_idempotent :
    (∀ s, clean_employee_id (clean_employee_id s) = clean_employee_id s)
    ∧ clean_employee_id "1023.0" = "1023"
    ∧ clean_employee_id "1023" = "1023"
    ∧ (∀ s, (['.', '0'].isSuffixOf s.data && pyIsDigit s.data.dropLast.dropLast) = true →
        clean_employee_id s = ⟨s.data.dropLast.dropLast⟩)
    ∧ (∀ s, (['.', '0'].isSuffixOf s.data && pyIsDigit s.data.dropLast.dropLast) = false →
        clean_employee_id s = s) := by
  refine ⟨fun s => ?_, by decide, by decide, fun s h => ?_, fun s h => ?_⟩
  · show (⟨cleanIdChars (clean_employee_id s).data⟩ : String) = _
    have : (clean_employee_id s).data = cleanIdChars s.data := rfl
    rw [this, cleanIdChars_idem]
    rfl
  · show (⟨cleanIdChars s.data⟩ : String) = _
    rw [cleanIdChars, if_pos h]
  · show (⟨cleanIdChars s.data⟩ : String) = s
    rw [cleanIdChars, if_neg (by simp [h])]

/-- C9 witness: the conditional parts of C9 evaluated at "1023.0". -/
theorem C9_normalization_idempotent_witness :
    ((['.', '0'].isSuffixOf "1023.0".data && pyIsDigit "1023.0".data.dropLast.dropLast) = true)
    ∧ clean_employee_id "1023.0" = ⟨"1023.0".data.dropLast.dropLast⟩ := by
  refine ⟨by decide, C9_normalization_idempotent.2.2.2.1 "1023.0" (by decide)⟩

/-- C3 counterexample: for the identifier "No.1023" the code removes four
characters, not the literal three-character "No." the claim describes, so
the produced filename differs from the claim's filename. -/
theorem C3_counterexample :
    output_filename "front" "No.1023"
      ≠ "Badge_output/badge_" ++ "front" ++ "_"
          ++ sanitize_filename (spec_id_base "No.1023") ++ ".png" := by
  decide

/-- C3 (amended): the filename is badge_{side}_{safeId}.png where the safe
identifier is obtained by dropping the first four characters whenever the
identifier starts with "No." (the prefix and the character after it), then
substituting an underscore for every occurrence of a character from the
fixed illegal set — a deterministic, order-preserving per-character map. -/
theorem C3_output_naming (side eid : String) :
    output_filename side eid
      = "Badge_output/badge_" ++ side ++ "_"
        ++ (⟨(id_filename_base eid).data.map fun c =>
              if c ∈ illegal_chars then '_' else c⟩ : String)
        ++ ".png"
    ∧ (pyStartsWith eid "No." = true → id_filename_base eid = pyDrop eid 4)
    ∧ (pyStartsWith eid "No." = false → id_filename_base eid = eid) := by
  refine ⟨?_, fun h => by simp [id_filename_base, h], fun h => by simp [id_filename_base, h]⟩
  unfold output_filename sanitize_filename
  congr 3
  exact foldl_replaceChar illegal_chars (id_filename_base eid).data (by decide)

/-- C3 witness: the amended naming rule evaluated at "No. 10/23". -/
theorem C3_output_naming_witness :
    output_filename "front" "No. 10/23"
      = "Badge_output/badge_" ++ "front" ++ "_"
        ++ (⟨(id_filename_base "No. 10/23").data.map fun c =>
              if c ∈ illegal_chars then '_' else c⟩ : String)
        ++ ".png"
    ∧ (pyStartsWith "No. 10/23" "No." = true)
    ∧ id_filename_base "No. 10/23" = pyDrop "No. 10/23" 4 := by
  refine ⟨(C3_output_naming "front" "No. 10/23").1, by decide,
    (C3_output_naming "front" "No. 10/23").2.1 (by decide)⟩

/-- C10: in the batch path the preset is merged last over the row-derived
record, so the preset's value wins for any key the preset supplies; in the
GUI path the user's input is merged last over the preset copy, so the
user's value wins there — the two merge orders are reversed. -/
theorem C10_merge_order (preset : String → Option String)
    (localName eid dep pos k pv : String) (hp : preset k = some pv) :
    batch_front_record localName eid dep pos preset k = some pv
    ∧ (∀ nameE idE depE posE uv, gui_user_fields nameE idE depE posE k = some uv →
        gui_record preset nameE idE depE posE k = some uv) := by
  constructor
  · simp [batch_front_record, dict_update, hp]
  · intro nameE idE depE posE uv hu
    simp [gui_record, dict_update, hu]

/-- C10 witness: with a preset carrying name "PRESET" and a row carrying
name "ROW", the batch record keeps the preset's value while the GUI record
keeps the user's value. -/
theorem C10_merge_order_witness :
    batch_front_record "ROW" "1" "D" "P"
        (fun k => if k = "name" then some "PRESET" else none) "name" = some "PRESET"
    ∧ gui_record (fun k => if k = "name" then some "PRESET" else none)
        "ROW" "1" "D" "P" "name" = some "ROW" := by
  have h := C10_merge_order (fun k => if k = "name" then some "PRESET" else none)
    "ROW" "1" "D" "P" "name" "PRESET" (by decide)
  exact ⟨h.1, h.2 "ROW" "1" "D" "P" "ROW" (by decide)⟩

end BadgeGen
